import Mathlib

/-!
Shallow embedding of the forecast engine in `app/main.py`
(class `SimpleForecastEngine`) of the Demand-ForeCasting repository.

Modelling conventions:
* Python floats are idealised as `ℚ`; `round(x, 2)` is modelled as exact
  decimal rounding half-to-even on rationals (`round2`).
* `np.sin` is an opaque parameter `sn : ℚ → ℚ`; `np.random.normal` draws are
  an opaque stream `noise : ℕ → ℚ` indexed by the sequential draw counter.
* Calendar dates are proleptic-Gregorian day ordinals (`ℤ`), matching
  Python's `date.toordinal`; ordinal 1 is a Monday, so
  `weekday d = (d - 1) % 7` with Monday = 0, as `datetime.weekday` returns.
* Raised Python exceptions are `Except.error`; pandas DataFrames are
  association-list tables of strings.
-/

/-- The configuration document: `data.processed_path` plus the four
`model.*` column names read by the engine. -/
structure Config where
  processedPath : String
  targetColumn : String
  dateColumn : String
  centerColumn : String
  itemColumn : String
deriving DecidableEq

/-- The built-in default literal document substituted in
`SimpleForecastEngine.__init__` when `open(config_path)` raises
`FileNotFoundError`. -/
def defaultConfig : Config :=
  { processedPath := "data/processed/forecasting_data.parquet"
    targetColumn := "PAY WEIGHT"
    dateColumn := "DATE"
    centerColumn := "CENTER NAME"
    itemColumn := "ITEM" }

/-- Outcome of opening and yaml-parsing the configuration file:
the file may be missing (`FileNotFoundError`), unreadable for another
reason (e.g. `PermissionError`), unparseable (`yaml.YAMLError`), or parsed
successfully. -/
inductive ConfigSource where
  | missing
  | readFailure
  | parseFailure
  | parsed (c : Config)
deriving DecidableEq

/-- Model of the `SimpleForecastEngine.__init__` configuration step: the
`try/except FileNotFoundError` around `yaml.safe_load`.  Only the
missing-file case is caught and replaced by `defaultConfig`; every other
failure propagates out of the constructor. -/
def loadConfig : ConfigSource → Except String Config
  | .missing => .ok defaultConfig
  | .readFailure => .error "read failure"
  | .parseFailure => .error "parse failure"
  | .parsed c => .ok c

/-- Test `leadEq n h`: the character list `n` is a leading segment of `h`. -/
def leadEq : List Char → List Char → Bool
  | [], _ => true
  | _ :: _, [] => false
  | a :: as, b :: bs => a == b && leadEq as bs

/-- Test `occursIn n h`: the character list `n` occurs contiguously in `h`
(Python's `n in h` on strings). -/
def occursIn (n : List Char) : List Char → Bool
  | [] => n.isEmpty
  | c :: hs => leadEq n (c :: hs) || occursIn n hs

/-- Python's `needle in item.upper()` for an already-uppercase `needle`. -/
def containsUC (item : String) (needle : String) : Bool :=
  occursIn needle.data (item.data.map Char.toUpper)

/-- Python's `needle in col.lower()` for an already-lowercase `needle`. -/
def containsLC (col : String) (needle : String) : Bool :=
  occursIn needle.data (col.data.map Char.toLower)

/-- Round a rational to the nearest integer, ties to even — the rounding
mode of Python's builtin `round`. -/
def roundHE (x : ℚ) : ℤ :=
  let n := ⌊x⌋
  let r := x - n
  if r < 1/2 then n
  else if 1/2 < r then n + 1
  else if n % 2 = 0 then n else n + 1

/-- Python's `round(x, 2)`, idealised to exact decimal rounding on `ℚ`. -/
def round2 (x : ℚ) : ℚ := (roundHE (x * 100) : ℚ) / 100

theorem floor_le_roundHE (x : ℚ) : ⌊x⌋ ≤ roundHE x := by
  unfold roundHE
  dsimp only
  split
  · exact le_refl _
  · split
    · exact Int.le_add_one (le_refl _)
    · split
      · exact le_refl _
      · exact Int.le_add_one (le_refl _)

theorem round2_ge_100 {v : ℚ} (h : 100 ≤ v) : 100 ≤ round2 v := by
  unfold round2
  have h1 : (10000 : ℚ) ≤ v * 100 := by linarith
  have h2 : (10000 : ℤ) ≤ ⌊v * 100⌋ := by
    exact Int.le_floor.mpr (by exact_mod_cast h1)
  have h3 : (10000 : ℤ) ≤ roundHE (v * 100) := le_trans h2 (floor_le_roundHE _)
  have h4 : (10000 : ℚ) ≤ (roundHE (v * 100) : ℚ) := by exact_mod_cast h3
  linarith

/-- An in-memory pandas DataFrame, modelled as named columns plus rows of
(column, value) cells. -/
structure DF where
  cols : List String
  rows : List (List (String × String))
deriving DecidableEq

/-- The values of column `c` of a table, row by row. -/
def colOf (rows : List (List (String × String))) (c : String) : List String :=
  rows.map (fun r => (r.lookup c).getD "")

/-- Lexicographic order on the character sequences of two strings —
Python's `str` comparison (code-point lexicographic). -/
def dataLe (a b : String) : Prop := a.data ≤ b.data

/-- Strict lexicographic order on the character sequences of two strings. -/
def dataLt (a b : String) : Prop := a.data < b.data

instance : DecidableRel dataLe :=
  fun a b => inferInstanceAs (Decidable (a.data ≤ b.data))

instance : DecidableRel dataLt :=
  fun a b => inferInstanceAs (Decidable (a.data < b.data))

instance : IsTotal String dataLe := ⟨fun a b => le_total a.data b.data⟩

instance : IsTrans String dataLe := ⟨fun _ _ _ h1 h2 => le_trans h1 h2⟩

/-- Python's `sorted(series.unique())`: deduplicate keeping strings
distinct, then sort lexicographically ascending. -/
def sortedUnique (l : List String) : List String :=
  List.insertionSort dataLe l.dedup

/-- Model of `SimpleForecastEngine.get_available_centers`: sorted distinct values of
the configured center column when a dataset with that column is loaded,
else the fixed fallback list (in its literal, unsorted order). -/
def getAvailableCenters (cfg : Config) (data : Option DF) : List String :=
  match data with
  | some df =>
      if df.cols.contains cfg.centerColumn then
        sortedUnique (colOf df.rows cfg.centerColumn)
      else ["KASARA", "TALOJA", "ALIBAG", "UTTAN", "VASAI"]
  | none => ["KASARA", "TALOJA", "ALIBAG", "UTTAN", "VASAI"]

/-- Model of `SimpleForecastEngine.get_available_items`: with a dataset holding the
configured item column, optionally filter rows to the given (truthy)
center and return sorted distinct item values; the row filter indexes the
center column unconditionally, so a table without that column raises
`KeyError` (`Except.error ()`).  Otherwise the fixed fallback list. -/
def getAvailableItems (cfg : Config) (data : Option DF) (center : Option String) :
    Except Unit (List String) :=
  match data with
  | some df =>
      if df.cols.contains cfg.itemColumn then
        match center with
        | some c =>
            if c = "" then
              .ok (sortedUnique (colOf df.rows cfg.itemColumn))
            else if df.cols.contains cfg.centerColumn then
              .ok (sortedUnique (colOf
                (df.rows.filter (fun r => (r.lookup cfg.centerColumn).getD "" = c))
                cfg.itemColumn))
            else .error ()
        | none => .ok (sortedUnique (colOf df.rows cfg.itemColumn))
      else .ok ["CHILAPI", "MIX FISH", "PRAWN HEAD AND SHEL", "MUNDI", "BOMBIL"]
  | none => .ok ["CHILAPI", "MIX FISH", "PRAWN HEAD AND SHEL", "MUNDI", "BOMBIL"]

theorem mem_sortedUnique {a : String} {l : List String} :
    a ∈ sortedUnique l ↔ a ∈ l := by
  unfold sortedUnique
  rw [(List.perm_insertionSort dataLe l.dedup).mem_iff]
  exact List.mem_dedup

theorem sortedUnique_pairwise_lt (l : List String) :
    List.Pairwise dataLt (sortedUnique l) := by
  have hs : List.Sorted dataLe (sortedUnique l) :=
    List.sorted_insertionSort dataLe l.dedup
  have hn : (sortedUnique l).Nodup :=
    ((List.perm_insertionSort dataLe l.dedup).nodup_iff).mpr l.nodup_dedup
  refine (hs.and hn).imp (fun h => ?_)
  exact lt_of_le_of_ne h.1 (fun hd => h.2 (by apply String.ext; exact hd))

/-- Python's `datetime.weekday()` of the day with proleptic ordinal `d`
(Monday = 0; ordinal 1, 0001-01-01, is a Monday). -/
def weekday (d : ℤ) : ℤ := (d - 1) % 7

/-- One forecast point of `generate_forecast`: the calendar date (as a day
ordinal; the code renders it with `strftime("%Y-%m-%d")`), the rounded
forecast and the two rounded bounds. -/
structure FPoint where
  date : ℤ
  forecast : ℚ
  lowerBound : ℚ
  upperBound : ℚ
deriving DecidableEq

/-- The base-demand chain of `generate_forecast`: first-match-wins
`elif` cascade of uppercase substring tests on the item name, each branch
`baseline + np.sin(i * frequency) * amplitude`. -/
def baseDemand (sn : ℚ → ℚ) (item : String) (i : ℕ) : ℚ :=
  if containsUC item "CHILAPI" then 1500 + sn ((i : ℚ) * 0.2) * 300
  else if containsUC item "MIX FISH" then 2000 + sn ((i : ℚ) * 0.15) * 400
  else if containsUC item "PRAWN" then 800 + sn ((i : ℚ) * 0.25) * 200
  else if containsUC item "MUNDI" then 600 + sn ((i : ℚ) * 0.3) * 150
  else 1000 + sn ((i : ℚ) * 0.1) * 200

/-- The date `forecast_date = datetime.now() + timedelta(days=1) + timedelta(days=i)`,
as a day ordinal relative to the generation day `today`. -/
def fcDate (today : ℤ) (i : ℕ) : ℤ := today + 1 + (i : ℤ)

/-- The value `forecast_value = max(100, base_demand + np.random.normal(0, 100))`
after the 1.2 weekend multiplier, with `ε` the Gaussian draw. -/
def fcValue (sn : ℚ → ℚ) (ε : ℚ) (today : ℤ) (item : String) (i : ℕ) : ℚ :=
  max 100
    ((if 5 ≤ weekday (fcDate today i) then baseDemand sn item i * 1.2
      else baseDemand sn item i) + ε)

/-- The record appended for day-offset `i`: rounded forecast and the
proportional bounds, all rounded to 2 decimals from the unrounded value. -/
def forecastPoint (sn : ℚ → ℚ) (ε : ℚ) (today : ℤ) (item : String) (i : ℕ) : FPoint :=
  { date := fcDate today i
    forecast := round2 (fcValue sn ε today item i)
    lowerBound := round2 (fcValue sn ε today item i * 0.85)
    upperBound := round2 (fcValue sn ε today item i * 1.15) }

/-- The inner `for i in range(forecast_days)` loop for one (center, item)
pair; `k` is the index of the next Gaussian draw in the process-wide
stream. -/
def genSeries (sn : ℚ → ℚ) (noise : ℕ → ℚ) (today : ℤ) (item : String)
    (k : ℕ) (N : ℕ) : List FPoint :=
  (List.range N).map (fun i => forecastPoint sn (noise (k + i)) today item i)

/-- The `for item in items` loop, threading the draw counter. -/
def genItems (sn : ℚ → ℚ) (noise : ℕ → ℚ) (today : ℤ)
    (items : List String) (N : ℕ) (k : ℕ) : List (String × List FPoint) :=
  match items with
  | [] => []
  | it :: rest =>
      (it, genSeries sn noise today it k N) :: genItems sn noise today rest N (k + N)

/-- The `for center in centers` loop. -/
def genCenters (sn : ℚ → ℚ) (noise : ℕ → ℚ) (today : ℤ)
    (centers items : List String) (N : ℕ) (k : ℕ) :
    List (String × List (String × List FPoint)) :=
  match centers with
  | [] => []
  | c :: rest =>
      (c, genItems sn noise today items N k) ::
        genCenters sn noise today rest items N (k + items.length * N)

/-- Model of `SimpleForecastEngine.generate_forecast(centers, items, forecast_days,
model_type)`: nested insertion-ordered mappings, modelled as association
lists.  The `model_type` argument is accepted and never read. -/
def generateForecast (sn : ℚ → ℚ) (noise : ℕ → ℚ) (today : ℤ)
    (centers items : List String) (N : ℕ) (modelType : String) :
    List (String × List (String × List FPoint)) :=
  genCenters sn noise today centers items N 0

/-- A parsed upload (`pd.read_csv` result): column names in order plus
rows of (column, raw cell) pairs. -/
structure UTable where
  cols : List String
  rows : List (List (String × String))
deriving DecidableEq

/-- The analysis dictionary built by `analyze_uploaded_data`.  `dateRange`
holds (start, end) day ordinals; `centers`/`products` are initialised to
`[]` and never filled. -/
structure AnalysisResult where
  totalRecords : ℕ
  columns : List String
  dateRange : Option (ℤ × ℤ)
  centers : List String
  products : List String
  totalDemand : ℚ
  recommendations : List String
deriving DecidableEq

/-- The list `[col for col in df.columns if 'date' in col.lower() or 'time' in col.lower()]`. -/
def dateColumns (cols : List String) : List String :=
  cols.filter (fun c => containsLC c "date" || containsLC c "time")

/-- The list `[col for col in df.columns if 'weight' in col.lower() or 'quantity' in
col.lower() or 'demand' in col.lower()]`. -/
def demandColumns (cols : List String) : List String :=
  cols.filter (fun c =>
    containsLC c "weight" || containsLC c "quantity" || containsLC c "demand")

/-- Model of `SimpleForecastEngine.analyze_uploaded_data`, parameterised by the
pandas cell semantics: `dateSem` is `pd.to_datetime(·, errors='coerce')`
on one cell (`none` = `NaT`), `numSem` the numeric value a cell
contributes to `.sum()`.  `parsed = none` is a `pd.read_csv` failure.
When a date-like column exists but holds no parseable date, `.min()` /
`.max()` are `NaT` and `NaT.strftime` raises, landing in the blanket
`except` which returns the error dictionary.  (The in-place datetime
conversion of the detected date column is not replayed into the demand
sum; no claim exercises a column that is both date-like and demand-like.) -/
def analyzeUploadedData (dateSem : String → Option ℤ) (numSem : String → ℚ)
    (parsed : Option UTable) : Except String AnalysisResult :=
  match parsed with
  | none => .error "Error analyzing file: parse failure"
  | some t =>
      let dr? : Except String (Option (ℤ × ℤ)) :=
        match dateColumns t.cols with
        | [] => .ok none
        | c :: _ =>
            let ds := (colOf t.rows c).filterMap dateSem
            match ds.min?, ds.max? with
            | some a, some b => .ok (some (a, b))
            | _, _ => .error "Error analyzing file: NaT strftime"
      match dr? with
      | .error e => .error e
      | .ok dr =>
          .ok { totalRecords := t.rows.length
                columns := t.cols
                dateRange := dr
                centers := []
                products := []
                totalDemand :=
                  match demandColumns t.cols with
                  | [] => 0
                  | c :: _ => ((colOf t.rows c).map numSem).sum
                recommendations :=
                  ["Data uploaded successfully for analysis",
                   "Found " ++ toString t.rows.length ++ " records for processing",
                   "Ready to generate next year forecasts",
                   "Seasonal patterns will be analyzed automatically"] }

/-- Claim C3 counterexample: a yaml parse failure is not caught by
`__init__` (only `FileNotFoundError` is), so the constructor does not fall
back to the default document — it raises to the caller. -/
theorem c3_counterexample :
    loadConfig ConfigSource.parseFailure ≠ Except.ok defaultConfig := by
  intro h
  exact Except.noConfusion h

/-- Claim C3 (amended): constructing the engine with a missing
configuration file substitutes the built-in default literal document and
raises no error; any other read failure, and any parse failure, propagates
an error to the caller; a parsed document is taken as-is. -/
theorem c3_amended :
    loadConfig ConfigSource.missing = Except.ok defaultConfig ∧
    (∃ e, loadConfig ConfigSource.readFailure = Except.error e) ∧
    (∃ e, loadConfig ConfigSource.parseFailure = Except.error e) ∧
    (∀ c, loadConfig (ConfigSource.parsed c) = Except.ok c) :=
  ⟨rfl, ⟨_, rfl⟩, ⟨_, rfl⟩, fun _ => rfl⟩

/-- Claim C6: `generate_forecast` never reads `model_type`, so two runs
with the same centers, items, horizon, generation time and randomness
stream but any two model selectors (unknown names included) return
identical output. -/
theorem c6_model_selector_no_influence :
    ∀ (sn : ℚ → ℚ) (noise : ℕ → ℚ) (today : ℤ) (centers items : List String)
      (N : ℕ) (m1 m2 : String),
      generateForecast sn noise today centers items N m1 =
        generateForecast sn noise today centers items N m2 :=
  fun _ _ _ _ _ _ _ _ => rfl

/-- Claim C2 counterexample: with a non-empty centers list and an empty
items list, the top-level mapping is not empty — `forecasts[center] = {}`
runs before the items loop, so each center appears with an empty inner
mapping. -/
theorem c2_counterexample :
    generateForecast (fun _ => 0) (fun _ => 0) 0 ["KASARA"] [] 7 "xgboost" =
      [("KASARA", [])] ∧
    ([("KASARA", ([] : List (String × List FPoint)))] :
      List (String × List (String × List FPoint))) ≠ [] :=
  ⟨rfl, by decide⟩

theorem genCenters_empty_items (sn : ℚ → ℚ) (noise : ℕ → ℚ) (today : ℤ)
    (centers : List String) (N : ℕ) :
    ∀ k, genCenters sn noise today centers [] N k =
      centers.map (fun c => (c, [])) := by
  induction centers with
  | nil => intro k; rfl
  | cons c rest ih =>
      intro k
      simp only [genCenters, genItems, List.map_cons, List.length_nil,
        Nat.zero_mul, Nat.add_zero]
      rw [ih]

/-- Claim C2 (amended): `generate_forecast([], items, N, m)` returns an
empty top-level mapping; `generate_forecast(centers, [], N, m)` returns a
top-level mapping with one entry per requested center, each mapped to an
empty inner mapping. -/
theorem c2_amended :
    ∀ (sn : ℚ → ℚ) (noise : ℕ → ℚ) (today : ℤ) (centers items : List String)
      (N : ℕ) (m : String),
      generateForecast sn noise today [] items N m = [] ∧
      generateForecast sn noise today centers [] N m =
        centers.map (fun c => (c, [])) :=
  fun sn noise today centers _ N _ =>
    ⟨rfl, genCenters_empty_items sn noise today centers N 0⟩

/-- Claim C1 counterexample: with no historical dataset loaded,
`get_available_centers` returns the literal fallback list
`["KASARA", "TALOJA", "ALIBAG", "UTTAN", "VASAI"]`, which is neither the
claimed sorted list nor strictly sorted ("TALOJA" is followed by
"ALIBAG"). -/
theorem c1_counterexample :
    getAvailableCenters defaultConfig none ≠
      ["ALIBAG", "KASARA", "TALOJA", "UTTAN", "VASAI"] ∧
    ¬ List.Pairwise dataLt (getAvailableCenters defaultConfig none) := by
  constructor
  · decide
  · decide

/-- The `sortedUnique` output has no duplicate entries. -/
theorem sortedUnique_nodup (l : List String) : (sortedUnique l).Nodup :=
  ((List.perm_insertionSort dataLe l.dedup).nodup_iff).mpr l.nodup_dedup

/-- Claim C1 (amended): sequences computed from a loaded dataset (the
configured column present) are strictly sorted ascending and
duplicate-free; with no dataset loaded, `get_available_centers` returns
exactly the duplicate-free but unsorted literal list
`["KASARA", "TALOJA", "ALIBAG", "UTTAN", "VASAI"]` — the five claimed
names in a different order — and `get_available_items` returns the
duplicate-free literal list
`["CHILAPI", "MIX FISH", "PRAWN HEAD AND SHEL", "MUNDI", "BOMBIL"]`. -/
theorem c1_amended :
    (∀ cfg df, df.cols.contains cfg.centerColumn = true →
      List.Pairwise dataLt (getAvailableCenters cfg (some df)) ∧
      (getAvailableCenters cfg (some df)).Nodup) ∧
    (∀ cfg df center xs, df.cols.contains cfg.itemColumn = true →
      getAvailableItems cfg (some df) center = Except.ok xs →
      List.Pairwise dataLt xs ∧ xs.Nodup) ∧
    (∀ cfg, getAvailableCenters cfg none =
        ["KASARA", "TALOJA", "ALIBAG", "UTTAN", "VASAI"] ∧
      (getAvailableCenters cfg none).Nodup) ∧
    (∀ cfg, getAvailableItems cfg none none =
      Except.ok ["CHILAPI", "MIX FISH", "PRAWN HEAD AND SHEL", "MUNDI", "BOMBIL"]) := by
  refine ⟨?_, ?_, ?_, ?_⟩
  · intro cfg df h
    simp only [getAvailableCenters, h, if_true]
    exact ⟨sortedUnique_pairwise_lt _, sortedUnique_nodup _⟩
  · intro cfg df center xs h hok
    simp only [getAvailableItems, h, if_true] at hok
    match center with
    | none =>
        simp only at hok
        cases hok
        exact ⟨sortedUnique_pairwise_lt _, sortedUnique_nodup _⟩
    | some c =>
        simp only at hok
        split at hok
        · cases hok
          exact ⟨sortedUnique_pairwise_lt _, sortedUnique_nodup _⟩
        · split at hok
          · cases hok
            exact ⟨sortedUnique_pairwise_lt _, sortedUnique_nodup _⟩
          · cases hok
  · intro cfg
    refine ⟨rfl, ?_⟩
    show (["KASARA", "TALOJA", "ALIBAG", "UTTAN", "VASAI"] : List String).Nodup
    decide
  · intro cfg
    rfl

/-- Claim C1 amended witness: concrete instances of the amended claim at a
two-row dataset and at the no-dataset state. -/
theorem c1_amended_witness :
    (List.Pairwise dataLt (getAvailableCenters defaultConfig
        (some ⟨["CENTER NAME"],
          [[("CENTER NAME", "TALOJA")], [("CENTER NAME", "ALIBAG")]]⟩)) ∧
      (getAvailableCenters defaultConfig
        (some ⟨["CENTER NAME"],
          [[("CENTER NAME", "TALOJA")], [("CENTER NAME", "ALIBAG")]]⟩)).Nodup) ∧
    (List.Pairwise dataLt ["ALIBAG", "TALOJA"] ∧
      (["ALIBAG", "TALOJA"] : List String).Nodup) :=
  ⟨c1_amended.1 defaultConfig
      ⟨["CENTER NAME"], [[("CENTER NAME", "TALOJA")], [("CENTER NAME", "ALIBAG")]]⟩
      (by decide),
   c1_amended.2.1 defaultConfig
      ⟨["ITEM"], [[("ITEM", "TALOJA")], [("ITEM", "ALIBAG")]]⟩
      none ["ALIBAG", "TALOJA"] (by decide) rfl⟩

/-- Claim C7: the base-demand curve is selected by first-match-wins
case-insensitive substring test in the fixed priority order CHILAPI,
MIX FISH, PRAWN, MUNDI, else default; in particular any item containing
"prawn" (case-insensitively) but neither "chilapi" nor "mix fish" uses
`800 + sin(i * 0.25) * 200` and not the default `1000 + sin(i * 0.1) * 200`. -/
theorem c7_base_demand_priority :
    ∀ (sn : ℚ → ℚ) (item : String) (i : ℕ),
      (containsUC item "CHILAPI" = true →
        baseDemand sn item i = 1500 + sn ((i : ℚ) * 0.2) * 300) ∧
      (containsUC item "CHILAPI" = false → containsUC item "MIX FISH" = true →
        baseDemand sn item i = 2000 + sn ((i : ℚ) * 0.15) * 400) ∧
      (containsUC item "CHILAPI" = false → containsUC item "MIX FISH" = false →
        containsUC item "PRAWN" = true →
        baseDemand sn item i = 800 + sn ((i : ℚ) * 0.25) * 200) ∧
      (containsUC item "CHILAPI" = false → containsUC item "MIX FISH" = false →
        containsUC item "PRAWN" = false → containsUC item "MUNDI" = true →
        baseDemand sn item i = 600 + sn ((i : ℚ) * 0.3) * 150) ∧
      (containsUC item "CHILAPI" = false → containsUC item "MIX FISH" = false →
        containsUC item "PRAWN" = false → containsUC item "MUNDI" = false →
        baseDemand sn item i = 1000 + sn ((i : ℚ) * 0.1) * 200) := by
  intro sn item i
  refine ⟨?_, ?_, ?_, ?_, ?_⟩ <;> intros <;> simp only [baseDemand, *] <;> rfl

/-- Claim C7 witness: the item "fresh prawn head" matches the prawn branch
and none of the earlier branches, and gets the prawn curve. -/
theorem c7_witness :
    containsUC "fresh prawn head" "PRAWN" = true ∧
    containsUC "fresh prawn head" "CHILAPI" = false ∧
    containsUC "fresh prawn head" "MIX FISH" = false ∧
    baseDemand (fun _ => 0) "fresh prawn head" 3 = 800 + 0 * 200 :=
  ⟨by decide, by decide, by decide,
    (c7_base_demand_priority (fun _ => 0) "fresh prawn head" 3).2.2.1
      (by decide) (by decide) (by decide)⟩

theorem genSeries_length (sn : ℚ → ℚ) (noise : ℕ → ℚ) (today : ℤ)
    (item : String) (k N : ℕ) : (genSeries sn noise today item k N).length = N := by
  simp [genSeries]

theorem genSeries_dates (sn : ℚ → ℚ) (noise : ℕ → ℚ) (today : ℤ)
    (item : String) (k N : ℕ) :
    (genSeries sn noise today item k N).map FPoint.date =
      (List.range N).map (fun i => today + 1 + Int.ofNat i) := by
  simp only [genSeries, List.map_map]
  rfl

theorem genItems_keys (sn : ℚ → ℚ) (noise : ℕ → ℚ) (today : ℤ)
    (items : List String) (N : ℕ) :
    ∀ k, (genItems sn noise today items N k).map Prod.fst = items := by
  induction items with
  | nil => intro k; rfl
  | cons it rest ih =>
      intro k
      simp only [genItems, List.map_cons, ih]

theorem mem_genItems (sn : ℚ → ℚ) (noise : ℕ → ℚ) (today : ℤ)
    (items : List String) (N : ℕ) :
    ∀ k q, q ∈ genItems sn noise today items N k →
      ∃ k2, q.2 = genSeries sn noise today q.1 k2 N := by
  induction items with
  | nil => intro k q hq; cases hq
  | cons it rest ih =>
      intro k q hq
      rcases List.mem_cons.mp hq with h | h
      · subst h; exact ⟨k, rfl⟩
      · exact ih _ q h

theorem genCenters_keys (sn : ℚ → ℚ) (noise : ℕ → ℚ) (today : ℤ)
    (centers items : List String) (N : ℕ) :
    ∀ k, (genCenters sn noise today centers items N k).map Prod.fst = centers := by
  induction centers with
  | nil => intro k; rfl
  | cons c rest ih =>
      intro k
      simp only [genCenters, List.map_cons, ih]

theorem mem_genCenters (sn : ℚ → ℚ) (noise : ℕ → ℚ) (today : ℤ)
    (centers items : List String) (N : ℕ) :
    ∀ k p, p ∈ genCenters sn noise today centers items N k →
      ∃ k2, p.2 = genItems sn noise today items N k2 := by
  induction centers with
  | nil => intro k p hp; cases hp
  | cons c rest ih =>
      intro k p hp
      rcases List.mem_cons.mp hp with h | h
      · subst h; exact ⟨k, rfl⟩
      · exact ih _ p h

/-- Claim C5: for every horizon `N ≥ 1` the result covers every requested
(center, item) pair, and each series has exactly `N` points whose calendar
dates are `today + 1, today + 2, …, today + N` — strictly increasing by
one day starting the day after generation time. -/
theorem c5_series_shape :
    ∀ (sn : ℚ → ℚ) (noise : ℕ → ℚ) (today : ℤ) (centers items : List String)
      (N : ℕ) (m : String), 1 ≤ N →
      ((generateForecast sn noise today centers items N m).map Prod.fst = centers ∧
       ∀ p ∈ generateForecast sn noise today centers items N m,
         p.2.map Prod.fst = items ∧
         ∀ q ∈ p.2, q.2.length = N ∧
           q.2.map FPoint.date = (List.range N).map (fun i => today + 1 + Int.ofNat i)) := by
  intro sn noise today centers items N m _
  refine ⟨genCenters_keys sn noise today centers items N 0, ?_⟩
  intro p hp
  obtain ⟨k2, hp2⟩ := mem_genCenters sn noise today centers items N 0 p hp
  rw [hp2]
  refine ⟨genItems_keys sn noise today items N k2, ?_⟩
  intro q hq
  obtain ⟨k3, hq2⟩ := mem_genItems sn noise today items N k2 q hq
  rw [hq2]
  exact ⟨genSeries_length .., genSeries_dates ..⟩

/-- Claim C5 witness: a concrete two-day run starting from generation day
ordinal 10 yields dates 11 and 12 in each of the two requested series. -/
theorem c5_witness :
    (1 ≤ 2 : Prop) ∧
    ((generateForecast (fun _ => 0) (fun _ => 0) 10 ["KASARA"] ["MUNDI", "BOMBIL"] 2
        "lightgbm").map Prod.fst = ["KASARA"] ∧
     ∀ p ∈ generateForecast (fun _ => 0) (fun _ => 0) 10 ["KASARA"] ["MUNDI", "BOMBIL"] 2
        "lightgbm",
       p.2.map Prod.fst = ["MUNDI", "BOMBIL"] ∧
       ∀ q ∈ p.2, q.2.length = 2 ∧
         q.2.map FPoint.date = (List.range 2).map (fun i => 10 + 1 + Int.ofNat i)) :=
  ⟨by norm_num,
   c5_series_shape (fun _ => 0) (fun _ => 0) 10 ["KASARA"] ["MUNDI", "BOMBIL"] 2
     "lightgbm" (by norm_num)⟩

theorem roundHE_eq_self (n : ℤ) {x : ℚ} (hn : ⌊x⌋ = n) (h : x - n < 1/2) :
    roundHE x = n := by
  unfold roundHE
  dsimp only
  rw [hn, if_pos h]

theorem roundHE_eq_succ (n : ℤ) {x : ℚ} (hn : ⌊x⌋ = n)
    (h1 : ¬ (x - n < 1/2)) (h2 : 1/2 < x - n) : roundHE x = n + 1 := by
  unfold roundHE
  dsimp only
  rw [hn, if_neg h1, if_pos h2]

theorem round2_850049 : round2 ((850049 : ℚ)/8500) = 100.01 := by
  unfold round2
  have h : ((850049 : ℚ)/8500) * 100 = 850049/85 := by norm_num
  rw [h, roundHE_eq_succ 10000 (by norm_num) (by norm_num) (by norm_num)]
  norm_num

theorem round2_850049_lower : round2 ((850049 : ℚ)/8500 * 0.85) = 85 := by
  unfold round2
  have h : ((850049 : ℚ)/8500 * 0.85) * 100 = 14450833/1700 := by norm_num
  rw [h, roundHE_eq_self 8500 (by norm_num) (by norm_num)]
  norm_num

theorem round2_from_rounded : round2 ((100.01 : ℚ) * 0.85) = 85.01 := by
  unfold round2
  have h : ((100.01 : ℚ) * 0.85) * 100 = 170017/20 := by norm_num
  rw [h, roundHE_eq_succ 8500 (by norm_num) (by norm_num) (by norm_num)]
  norm_num

theorem c4_base_X : baseDemand (fun _ => 0) "X" 0 = 1000 := by
  unfold baseDemand
  rw [if_neg (by decide), if_neg (by decide), if_neg (by decide), if_neg (by decide)]
  norm_num

theorem c4_value : fcValue (fun _ => 0) ((-7649951 : ℚ)/8500) 1 "X" 0 = 850049/8500 := by
  unfold fcValue
  rw [if_neg (by decide), c4_base_X, max_eq_right (by norm_num)]
  norm_num

/-- Claim C4 counterexample: in the output for the Gaussian draw
-7649951/8500 (unrounded clamped value 100.00576…) the point's reported
forecast is 100.01 and its reported lower bound is
round2(100.00576… × 0.85) = 85.00, while round2(forecast × 0.85) =
round2(85.0085) = 85.01 — the bounds are rounded from the unrounded value,
not from the point's own rounded forecast field. -/
theorem c4_counterexample :
    ("C", genItems (fun _ => 0) (fun _ => (-7649951 : ℚ)/8500) 1 ["X"] 1 0) ∈
      generateForecast (fun _ => 0) (fun _ => (-7649951 : ℚ)/8500) 1 ["C"] ["X"] 1
        "xgboost" ∧
    ("X", genSeries (fun _ => 0) (fun _ => (-7649951 : ℚ)/8500) 1 "X" 0 1) ∈
      genItems (fun _ => 0) (fun _ => (-7649951 : ℚ)/8500) 1 ["X"] 1 0 ∧
    forecastPoint (fun _ => 0) ((-7649951 : ℚ)/8500) 1 "X" 0 ∈
      genSeries (fun _ => 0) (fun _ => (-7649951 : ℚ)/8500) 1 "X" 0 1 ∧
    (forecastPoint (fun _ => 0) ((-7649951 : ℚ)/8500) 1 "X" 0).lowerBound ≠
      round2 ((forecastPoint (fun _ => 0) ((-7649951 : ℚ)/8500) 1 "X" 0).forecast
        * 0.85) := by
  refine ⟨List.mem_singleton.mpr rfl, List.mem_singleton.mpr rfl,
    List.mem_singleton.mpr rfl, ?_⟩
  have hlb : (forecastPoint (fun _ => 0) ((-7649951 : ℚ)/8500) 1 "X" 0).lowerBound
      = 85 := by
    show round2 (fcValue (fun _ => 0) ((-7649951 : ℚ)/8500) 1 "X" 0 * 0.85) = 85
    rw [c4_value, round2_850049_lower]
  have hfc : (forecastPoint (fun _ => 0) ((-7649951 : ℚ)/8500) 1 "X" 0).forecast
      = 100.01 := by
    show round2 (fcValue (fun _ => 0) ((-7649951 : ℚ)/8500) 1 "X" 0) = 100.01
    rw [c4_value, round2_850049]
  rw [hlb, hfc, round2_from_rounded]
  norm_num

theorem mem_genSeries (sn : ℚ → ℚ) (noise : ℕ → ℚ) (today : ℤ)
    (item : String) (k N : ℕ) (point : FPoint)
    (h : point ∈ genSeries sn noise today item k N) :
    ∃ i, point = forecastPoint sn (noise (k + i)) today item i := by
  simp only [genSeries, List.mem_map] at h
  obtain ⟨i, _, hi⟩ := h
  exact ⟨i, hi.symm⟩

/-- Claim C4 (amended): every forecast point is built from one unrounded
clamped value `v ≥ 100`: the reported forecast is `round2 v` (hence
≥ 100), and the bounds are `round2 (v * 0.85)` and `round2 (v * 1.15)` —
rounded from `v` itself, not from the already-rounded forecast field. -/
theorem c4_amended :
    ∀ (sn : ℚ → ℚ) (noise : ℕ → ℚ) (today : ℤ) (centers items : List String)
      (N : ℕ) (m : String) p q point,
      p ∈ generateForecast sn noise today centers items N m →
      q ∈ p.2 → point ∈ q.2 →
      ∃ v : ℚ, 100 ≤ v ∧
        point.forecast = round2 v ∧
        point.lowerBound = round2 (v * 0.85) ∧
        point.upperBound = round2 (v * 1.15) ∧
        100 ≤ point.forecast := by
  intro sn noise today centers items N m p q point hp hq hpoint
  obtain ⟨k2, hp2⟩ := mem_genCenters sn noise today centers items N 0 p hp
  rw [hp2] at hq
  obtain ⟨k3, hq2⟩ := mem_genItems sn noise today items N k2 q hq
  rw [hq2] at hpoint
  obtain ⟨i, hi⟩ := mem_genSeries sn noise today q.1 k3 N point hpoint
  subst hi
  refine ⟨fcValue sn (noise (k3 + i)) today q.1 i, le_max_left _ _, rfl, rfl, rfl, ?_⟩
  exact round2_ge_100 (le_max_left _ _)

/-- Claim C4 amended witness: the amended invariant instantiated on the
single point of a concrete one-day run. -/
theorem c4_amended_witness :
    ∃ v : ℚ, 100 ≤ v ∧
      (forecastPoint (fun _ => 0) 0 10 "BOMBIL" 0).forecast = round2 v ∧
      (forecastPoint (fun _ => 0) 0 10 "BOMBIL" 0).lowerBound = round2 (v * 0.85) ∧
      (forecastPoint (fun _ => 0) 0 10 "BOMBIL" 0).upperBound = round2 (v * 1.15) ∧
      100 ≤ (forecastPoint (fun _ => 0) 0 10 "BOMBIL" 0).forecast :=
  c4_amended (fun _ => 0) (fun _ => 0) 10 ["VASAI"] ["BOMBIL"] 1 "xgboost"
    ("VASAI", genItems (fun _ => 0) (fun _ => 0) 10 ["BOMBIL"] 1 0)
    ("BOMBIL", genSeries (fun _ => 0) (fun _ => 0) 10 "BOMBIL" 0 1)
    (forecastPoint (fun _ => 0) 0 10 "BOMBIL" 0)
    (List.mem_singleton.mpr rfl) (List.mem_singleton.mpr rfl)
    (List.mem_singleton.mpr rfl)

/-- Claim C8 counterexample: in the engine state where the loaded dataset
has the item column but not the center column, `get_available_items` with
a location argument raises `KeyError` (no sequence is returned at all),
while the no-argument call succeeds — so the subset property does not hold
for every location and engine state. -/
theorem c8_counterexample :
    getAvailableItems defaultConfig
      (some ⟨["ITEM"], [[("ITEM", "FISH")]]⟩) (some "X") = Except.error () ∧
    getAvailableItems defaultConfig
      (some ⟨["ITEM"], [[("ITEM", "FISH")]]⟩) none = Except.ok ["FISH"] :=
  ⟨rfl, rfl⟩

/-- Claim C8 (amended): whenever `get_available_items(center)` returns a
sequence (it does not raise), `get_available_items()` also returns a
sequence and the former is a subset of the latter. -/
theorem c8_amended :
    ∀ cfg data L xs,
      getAvailableItems cfg data (some L) = Except.ok xs →
      ∃ ys, getAvailableItems cfg data none = Except.ok ys ∧ ∀ a ∈ xs, a ∈ ys := by
  intro cfg data L xs h
  cases data with
  | none =>
      cases h
      exact ⟨_, rfl, fun a ha => ha⟩
  | some df =>
      unfold getAvailableItems at h ⊢
      dsimp only at h ⊢
      by_cases hic : df.cols.contains cfg.itemColumn = true
      · rw [if_pos hic] at h ⊢
        by_cases hL : L = ""
        · rw [if_pos hL] at h
          cases h
          exact ⟨_, rfl, fun a ha => ha⟩
        · rw [if_neg hL] at h
          by_cases hcc : df.cols.contains cfg.centerColumn = true
          · rw [if_pos hcc] at h
            cases h
            refine ⟨_, rfl, ?_⟩
            intro a ha
            rw [mem_sortedUnique] at ha ⊢
            unfold colOf at ha ⊢
            obtain ⟨r, hr, hra⟩ := List.mem_map.mp ha
            exact List.mem_map.mpr ⟨r, List.mem_of_mem_filter hr, hra⟩
          · rw [if_neg hcc] at h
            exact Except.noConfusion h
      · rw [if_neg hic] at h
        cases h
        rw [if_neg hic]
        exact ⟨_, rfl, fun a ha => ha⟩

/-- Claim C8 amended witness: a concrete two-row dataset where the
restriction to center "UTTAN" returns ["POMFRET"], a subset of the
unrestricted item list. -/
theorem c8_amended_witness :
    ∃ ys, getAvailableItems defaultConfig
        (some ⟨["CENTER NAME", "ITEM"],
          [[("CENTER NAME", "UTTAN"), ("ITEM", "POMFRET")],
           [("CENTER NAME", "VASAI"), ("ITEM", "SURMAI")]]⟩) none = Except.ok ys ∧
      ∀ a ∈ ["POMFRET"], a ∈ ys :=
  c8_amended defaultConfig
    (some ⟨["CENTER NAME", "ITEM"],
      [[("CENTER NAME", "UTTAN"), ("ITEM", "POMFRET")],
       [("CENTER NAME", "VASAI"), ("ITEM", "SURMAI")]]⟩) "UTTAN" ["POMFRET"] rfl

/-- Claim C9 counterexample: a parseable table with a demand-like column
"WEIGHT" but whose date-like column "TIME" has no parseable value makes
`analyze_uploaded_data` return the error dictionary — no total_demand is
reported at all, although the table is parseable and a matching demand
column exists. -/
theorem c9_counterexample :
    analyzeUploadedData (fun _ => none) (fun _ => 5)
        (some ⟨["TIME", "WEIGHT"], [[("TIME", "garbage"), ("WEIGHT", "5")]]⟩) =
      Except.error "Error analyzing file: NaT strftime" ∧
    demandColumns ["TIME", "WEIGHT"] = ["WEIGHT"] :=
  ⟨rfl, by decide⟩

/-- Claim C9 (amended): for every parseable uploaded table on which the
analysis completes (returns an analysis result rather than the error
dictionary), total_demand equals the sum of the values of the first
column whose name contains "weight", "quantity" or "demand"
case-insensitively, and equals 0 when no column name matches. -/
theorem c9_amended :
    ∀ (dateSem : String → Option ℤ) (numSem : String → ℚ) (t : UTable) a,
      analyzeUploadedData dateSem numSem (some t) = Except.ok a →
      (demandColumns t.cols = [] → a.totalDemand = 0) ∧
      (∀ c cs, demandColumns t.cols = c :: cs →
        a.totalDemand = ((colOf t.rows c).map numSem).sum) := by
  intro dateSem numSem t a h
  unfold analyzeUploadedData at h
  dsimp only at h
  rcases hdc : dateColumns t.cols with _ | ⟨c0, rest⟩
  · rw [hdc] at h
    dsimp only at h
    cases h
    refine ⟨fun hdem => ?_, fun c cs hdem => ?_⟩
    · dsimp only
      rw [hdem]
    · dsimp only
      rw [hdem]
  · rw [hdc] at h
    dsimp only at h
    rcases hmin : ((colOf t.rows c0).filterMap dateSem).min? with _ | mn
    · rw [hmin] at h
      rcases hmax : ((colOf t.rows c0).filterMap dateSem).max? with _ | mx
      · rw [hmax] at h
        exact Except.noConfusion h
      · rw [hmax] at h
        exact Except.noConfusion h
    · rw [hmin] at h
      rcases hmax : ((colOf t.rows c0).filterMap dateSem).max? with _ | mx
      · rw [hmax] at h
        exact Except.noConfusion h
      · rw [hmax] at h
        dsimp only at h
        cases h
        refine ⟨fun hdem => ?_, fun c cs hdem => ?_⟩
        · dsimp only
          rw [hdem]
        · dsimp only
          rw [hdem]

/-- Claim C9 amended witness: on a concrete table with columns "Date" and
"Demand Weight" the analysis completes and total_demand is the sum of the
"Demand Weight" column values. -/
theorem c9_amended_witness :
    ({ totalRecords := 2
       columns := ["Date", "Demand Weight"]
       dateRange := some (5, 5)
       centers := []
       products := []
       totalDemand := ((colOf
         [[("Date", "2024-01-01"), ("Demand Weight", "3")],
          [("Date", "2024-01-02"), ("Demand Weight", "3")]] "Demand Weight").map
           (fun _ => (3 : ℚ))).sum
       recommendations :=
         ["Data uploaded successfully for analysis",
          "Found " ++ toString 2 ++ " records for processing",
          "Ready to generate next year forecasts",
          "Seasonal patterns will be analyzed automatically"] } :
      AnalysisResult).totalDemand =
      ((colOf
        [[("Date", "2024-01-01"), ("Demand Weight", "3")],
         [("Date", "2024-01-02"), ("Demand Weight", "3")]] "Demand Weight").map
          (fun _ => (3 : ℚ))).sum :=
  (c9_amended (fun _ => some 5) (fun _ => (3 : ℚ))
      ⟨["Date", "Demand Weight"],
        [[("Date", "2024-01-01"), ("Demand Weight", "3")],
         [("Date", "2024-01-02"), ("Demand Weight", "3")]]⟩ _ rfl).2
    "Demand Weight" [] (by decide)

/-- Claim C10: for every parseable table whose first date-like column has
no value that parses as a calendar date, `analyze_uploaded_data` returns
the error dictionary (formatting the `NaT` minimum/maximum raises into the
blanket `except`), not an analysis with a null date_range. -/
theorem c10_unparseable_dates_error :
    ∀ (dateSem : String → Option ℤ) (numSem : String → ℚ) (t : UTable) c cs,
      dateColumns t.cols = c :: cs →
      (∀ v ∈ colOf t.rows c, dateSem v = none) →
      ∃ msg, analyzeUploadedData dateSem numSem (some t) = Except.error msg := by
  intro dateSem numSem t c cs hdc hnone
  have hfm : (colOf t.rows c).filterMap dateSem = [] :=
    List.filterMap_eq_nil_iff.mpr hnone
  refine ⟨"Error analyzing file: NaT strftime", ?_⟩
  unfold analyzeUploadedData
  dsimp only
  rw [hdc]
  dsimp only
  rw [hfm]
  rfl

/-- Claim C10 witness: a concrete one-row table whose "Order Date" column
holds no parseable date makes the analysis return an error result. -/
theorem c10_witness :
    ∃ msg, analyzeUploadedData (fun _ => none) (fun _ => 0)
        (some ⟨["Order Date"], [[("Order Date", "notadate")]]⟩) =
      Except.error msg :=
  c10_unparseable_dates_error (fun _ => none) (fun _ => 0)
    ⟨["Order Date"], [[("Order Date", "notadate")]]⟩ "Order Date" [] (by decide)
    (by decide)
